import Mathlib

/-!
Shallow embedding of the MPI wrapper header
`examples/distributed_inference/plugins/common/mpiUtils.h` and of the build
script `packaging/pre_build_script.sh`, with theorems checking the
natural-language specification against the code.
-/

namespace tensorrt_llm.mpi

/-- `enum class MpiType`: wrapper of MPI data types (mpiUtils.h lines 66-81). -/
inductive MpiType where
  | kBYTE
  | kHALF
  | kFLOAT
  | kDOUBLE
  | kBOOL
  | kINT8
  | kUINT8
  | kINT32
  | kUINT32
  | kINT64
  | kUINT64
  | kFP8
  | kBF16
  | kCHAR
  deriving DecidableEq, Repr, Fintype

/-- The C++ types for which `MpiTypeConverter` has a specialization
(mpiUtils.h lines 84-151): std::byte, half, float, double, bool, the fixed
width integer types, char, and (under ENABLE_FP8 / ENABLE_BF16) the two
8/16-bit float types. -/
inductive CppConvType where
  | stdByte
  | half
  | float
  | double
  | bool
  | int8
  | uint8
  | int32
  | uint32
  | int64
  | uint64
  | char
  | fp8E4m3
  | bf16
  deriving DecidableEq, Repr, Fintype

/-- The `MpiTypeConverter<T>::value` table (mpiUtils.h lines 84-151), one
`MpiType` constant per specialized C++ type. -/
def MpiTypeConverter : CppConvType → MpiType
  | CppConvType.stdByte => MpiType.kBYTE
  | CppConvType.half => MpiType.kHALF
  | CppConvType.float => MpiType.kFLOAT
  | CppConvType.double => MpiType.kDOUBLE
  | CppConvType.bool => MpiType.kBOOL
  | CppConvType.int8 => MpiType.kINT8
  | CppConvType.uint8 => MpiType.kUINT8
  | CppConvType.int32 => MpiType.kINT32
  | CppConvType.uint32 => MpiType.kUINT32
  | CppConvType.int64 => MpiType.kINT64
  | CppConvType.uint64 => MpiType.kUINT64
  | CppConvType.char => MpiType.kCHAR
  | CppConvType.fp8E4m3 => MpiType.kFP8
  | CppConvType.bf16 => MpiType.kBF16

/-- `enum class MpiOp` (mpiUtils.h lines 154-169). -/
inductive MpiOp where
  | NULLOP
  | MAX
  | MIN
  | SUM
  | PROD
  | LAND
  | BAND
  | LOR
  | BOR
  | LXOR
  | BXOR
  | MINLOC
  | MAXLOC
  | REPLACE
  deriving DecidableEq, Repr

/-- `enum class MpiThreadSupport` (mpiUtils.h lines 172-177). -/
inductive MpiThreadSupport where
  | THREAD_SINGLE
  | THREAD_FUNNELED
  | THREAD_SERIALIZED
  | THREAD_MULTIPLE
  deriving DecidableEq, Repr

/-- The native thread-support constants from `<mpi.h>` (external to the
repository); their numeric values are implementation defined, so they are
carried abstractly. -/
structure MpiNativeThreadConsts where
  MPI_THREAD_SINGLE : Int
  MPI_THREAD_FUNNELED : Int
  MPI_THREAD_SERIALIZED : Int
  MPI_THREAD_MULTIPLE : Int

/-- The numeric value of each `MpiThreadSupport` enumerator: the source
declares `enum class MpiThreadSupport : int` with each enumerator set to the
corresponding `<mpi.h>` constant (mpiUtils.h lines 172-177). -/
def mpiThreadSupportValue (n : MpiNativeThreadConsts) : MpiThreadSupport → Int
  | MpiThreadSupport.THREAD_SINGLE => n.MPI_THREAD_SINGLE
  | MpiThreadSupport.THREAD_FUNNELED => n.MPI_THREAD_FUNNELED
  | MpiThreadSupport.THREAD_SERIALIZED => n.MPI_THREAD_SERIALIZED
  | MpiThreadSupport.THREAD_MULTIPLE => n.MPI_THREAD_MULTIPLE

/-- The default argument of `void initialize(MpiThreadSupport threadMode =
MpiThreadSupport::THREAD_FUNNELED)` (mpiUtils.h line 304). -/
def initializeDefaultThreadMode : MpiThreadSupport := MpiThreadSupport.THREAD_FUNNELED

/-- Modelled from the spec: the out-of-line `initialize` (declared at
mpiUtils.h line 304, body not in the provided sources) "only selects a
requested thread-support level at initialization"; it records the requested
level and passes it to the native library once. -/
def initializeRequestedLevel (threadMode : MpiThreadSupport) : MpiThreadSupport :=
  threadMode

/-- `class MpiComm` data members (mpiUtils.h lines 299-301): a native
communicator handle `MPI_Comm mComm` (the opaque native handle is modelled by
a numeric identifier) and the ownership flag `bool mFreeComm`. -/
structure MpiComm where
  mComm : Nat
  mFreeComm : Bool
  deriving DecidableEq, Repr

/-- `bool operator==(MpiComm const &rhs) const { return mComm == rhs.mComm; }`
(mpiUtils.h line 295). -/
def MpiComm.eqOp (self rhs : MpiComm) : Bool :=
  self.mComm == rhs.mComm

/-- `bool operator!=(MpiComm const &rhs) const { return !(rhs == *this); }`
(mpiUtils.h line 297). -/
def MpiComm.neOp (self rhs : MpiComm) : Bool :=
  !(MpiComm.eqOp rhs self)

/-- `MPI_SUCCESS` from `<mpi.h>`: the MPI standard fixes the success return
code to 0. -/
def MPI_SUCCESS : Int := 0

/-- `TLLM_MPI_CHECK(cmd)` (mpiUtils.h lines 41-45): evaluates `cmd` to a
return code `e` and aborts the process with a diagnostic message unless
`e == MPI_SUCCESS`. Abort is modelled as `Except.error`. -/
def tllmMpiCheck (e : Int) : Except String Unit :=
  if e == MPI_SUCCESS then Except.ok ()
  else Except.error "Failed: MPI error"

/-- `MpiRequest::wait` (mpiUtils.h lines 185-188): calls
`MPI_Wait(&mRequest, MPI_STATUS_IGNORE)` and discards the returned code (the
source itself marks this with `// TODO: Don't ignore return status`).
Whatever return code `_e` the native call produces, `wait` returns
normally. -/
def mpiRequestWait (_e : Int) : Except String Unit :=
  Except.ok ()

/-- A C++ type with its cv-qualifiers stripped, described by the three
attributes the wrapper's templates inspect: whether it is a fundamental type
(`std::is_fundamental_v`), its `sizeof`, and which `MpiTypeConverter`
specialization (if any) exists for it. -/
structure CppUnqualType where
  isFundamental : Bool
  sizeofVal : Nat
  mpiSpecialization : Option CppConvType
  deriving DecidableEq, Repr

/-- A possibly cv-qualified C++ type: cv-qualifiers on top of an unqualified
type. `sizeof`, `std::is_fundamental_v` and `MpiTypeConverter` all look
through the qualifiers. -/
structure CppQualType where
  isConst : Bool
  isVolatile : Bool
  base : CppUnqualType
  deriving DecidableEq, Repr

/-- `std::remove_cv_t<T>`: drops the cv-qualifiers. -/
def removeCv (T : CppQualType) : CppUnqualType := T.base

/-- `sizeof(T)`, which equals `sizeof(std::remove_cv_t<T>)`. -/
def sizeofT (T : CppQualType) : Nat := T.base.sizeofVal

/-- The `(count, datatype)` arguments `MpiComm::bcastValue` (mpiUtils.h lines
237-243) passes to the forwarded `bcast`: one element of
`MpiTypeConverter<std::remove_cv_t<T>>::value` when
`std::is_fundamental_v<std::remove_cv_t<T>>`, else `sizeof(T)` elements of
`MpiType::kBYTE`. `none` models the instantiation failing to compile because
no `MpiTypeConverter` specialization exists for the fundamental type. -/
def bcastValueArgs (T : CppQualType) : Option (Nat × MpiType) :=
  if (removeCv T).isFundamental then
    ((removeCv T).mpiSpecialization).map (fun c => (1, MpiTypeConverter c))
  else
    some (sizeofT T, MpiType.kBYTE)

/-- The `(count, datatype)` arguments the template overload
`MpiComm::send(T const&, int, int)` (mpiUtils.h lines 266-272) passes to the
forwarded `send`; same dispatch shape as `bcastValue`. -/
def sendValueArgs (T : CppQualType) : Option (Nat × MpiType) :=
  if (removeCv T).isFundamental then
    ((removeCv T).mpiSpecialization).map (fun c => (1, MpiTypeConverter c))
  else
    some (sizeofT T, MpiType.kBYTE)

/-- The `(count, datatype)` arguments the template overload
`MpiComm::recv(T&, int, int)` (mpiUtils.h lines 281-287) passes to the
forwarded `recv`; same dispatch shape as `bcastValue`. -/
def recvValueArgs (T : CppQualType) : Option (Nat × MpiType) :=
  if (removeCv T).isFundamental then
    ((removeCv T).mpiSpecialization).map (fun c => (1, MpiTypeConverter c))
  else
    some (sizeofT T, MpiType.kBYTE)

/-- A descriptor of `std::int32_t`: fundamental, 4 bytes, converted by the
`MpiTypeConverter<std::int32_t>` specialization. -/
def cppInt32 : CppQualType :=
  ⟨false, false, ⟨true, 4, some CppConvType.int32⟩⟩

/-- `runtime::MemoryType` from common/iBuffer.h (a header the wrapper
includes but which is not among the provided sources); only the distinction
between `kGPU` and the host-side kinds matters to the wrapper. -/
inductive MemoryType where
  | kCPU
  | kGPU
  | kPINNED
  deriving DecidableEq, Repr

/-- The part of `runtime::IBuffer` the wrapper reads: `getMemoryType()` and
`getSizeInBytes()` (plus `data()`, which carries no information at this level
of modelling). -/
structure IBuffer where
  memoryType : MemoryType
  sizeInBytes : Nat
  deriving DecidableEq, Repr

/-- `TLLM_CHECK(cond)` from common/assert.h (included by the wrapper but not
among the provided sources): aborts the process when the condition is false.
Abort is modelled as `Except.error`. -/
def tllmCheck (cond : Bool) : Except String Unit :=
  if cond then Except.ok () else Except.error "TLLM_CHECK failed"

/-- A record of one forwarded communication call, carrying the arguments the
wrapper computes for it. -/
inductive CommCall where
  | bcastCall (count : Nat) (dtype : MpiType) (root : Nat)
  | sendCall (count : Nat) (dtype : MpiType) (dest : Nat) (tag : Nat)
  | recvCall (count : Nat) (dtype : MpiType) (source : Nat) (tag : Nat)
  | allreduceCall (count : Nat) (dtype : MpiType) (op : MpiOp)
  | allgatherCall (count : Nat) (dtype : MpiType)
  | barrierCall
  | splitCall (color : Int) (key : Int)
  | mprobeCall (source : Nat) (tag : Nat)
  deriving DecidableEq, Repr

/-- `MpiComm::bcastAsync(runtime::IBuffer&, int)` (mpiUtils.h lines 226-229):
first `TLLM_CHECK(buf.getMemoryType() != runtime::MemoryType::kGPU)`, then a
single forwarded broadcast of the raw bytes; on a GPU buffer the check aborts
before any communication call is produced. -/
def bcastAsyncBuf (buf : IBuffer) (root : Nat) : Except String CommCall := do
  let _ ← tllmCheck (buf.memoryType != MemoryType.kGPU)
  pure (CommCall.bcastCall buf.sizeInBytes MpiType.kBYTE root)

/-- `MpiComm::bcast(runtime::IBuffer&, int)` (mpiUtils.h lines 233-235):
forwards the raw bytes unconditionally, with no memory-type check. -/
def bcastBuf (buf : IBuffer) (root : Nat) : Except String CommCall :=
  Except.ok (CommCall.bcastCall buf.sizeInBytes MpiType.kBYTE root)

/-- `MpiComm::send(runtime::IBuffer const&, int, int)` (mpiUtils.h lines
261-264): `TLLM_CHECK` against GPU memory, then a single forwarded send of
the raw bytes. -/
def sendBuf (buf : IBuffer) (dest tag : Nat) : Except String CommCall := do
  let _ ← tllmCheck (buf.memoryType != MemoryType.kGPU)
  pure (CommCall.sendCall buf.sizeInBytes MpiType.kBYTE dest tag)

/-- `MpiComm::recv(runtime::IBuffer&, int, int)` (mpiUtils.h lines 276-279):
`TLLM_CHECK` against GPU memory, then a single forwarded receive of the raw
bytes. -/
def recvBuf (buf : IBuffer) (source tag : Nat) : Except String CommCall := do
  let _ ← tllmCheck (buf.memoryType != MemoryType.kGPU)
  pure (CommCall.recvCall buf.sizeInBytes MpiType.kBYTE source tag)

/-- The methods of `MpiComm` other than construction, move and destruction
(mpiUtils.h lines 208-297). -/
inductive MpiCommConstOp where
  | getRank
  | getSize
  | opNativeComm
  | split
  | bcastAsyncRaw
  | bcastAsyncBuffer
  | bcastRaw
  | bcastBuffer
  | bcastValueOp
  | bcastVector
  | sendRaw
  | sendBuffer
  | sendValue
  | recvRaw
  | recvBuffer
  | recvValue
  | allreduceOp
  | allgatherOp
  | barrierOp
  | mprobeOp
  | eqOperator
  | neOperator
  deriving DecidableEq, Repr

/-- Every method of `MpiComm` other than construction, move and destruction
is declared `const` (mpiUtils.h lines 208-297) and the class has no `mutable`
members, so calling any of them leaves both data members unchanged: the state
after the call is the state before it. -/
def MpiComm.afterConstOp (c : MpiComm) (_op : MpiCommConstOp) : MpiComm := c

/-- `MpiComm::MpiComm(MPI_Comm g, bool freeComm)` (declared mpiUtils.h line
197; the body is not among the provided sources). Modelled from the spec: the
wrapper holds "a native communicator handle and a boolean ownership flag
(whether this wrapper must release the communicator on destruction)", so
construction stores its two arguments into the two data members. -/
def MpiComm.construct (g : Nat) (freeComm : Bool) : MpiComm :=
  ⟨g, freeComm⟩

/-- Modelled from the spec: `~MpiComm()` (declared mpiUtils.h line 198; the
body is not among the provided sources) releases the native communicator
exactly when the ownership flag is set — the flag records "whether this
wrapper must release the communicator on destruction". The returned Bool
says whether the native communicator is released. -/
def MpiComm.destructorReleases (c : MpiComm) : Bool := c.mFreeComm

/-- `std::vector<T>::resize(n)`: keeps the first `n` elements and
value-initializes any new elements up to length `n`. -/
def vectorResize {α : Type} (v : List α) (n : Nat) (dflt : α) : List α :=
  v.take n ++ List.replicate (n - v.length) dflt

/-- Modelled from the spec: the out-of-line `MpiComm::bcast(void*, size_t,
MpiType, int)` (declared mpiUtils.h line 231, body not among the provided
sources) is a single forwarding call to the native broadcast, whose
collective semantics — delegated "entirely to the underlying MPI/NCCL
implementations" — replaces every rank's buffer contents with the root's.
`mpiBcastDeliver vals root` gives each rank's buffer after the collective,
where `vals` lists one buffer per rank. -/
def mpiBcastDeliver {β : Type} (vals : List β) (root : Nat) : List β :=
  match vals[root]? with
  | some rootVal => vals.map (fun _ => rootVal)
  | none => vals

/-- The value each rank contributes to the size broadcast in
`MpiComm::bcast(std::vector<T>&, int)` (mpiUtils.h line 247):
`(rank == root) ? static_cast<int64_t>(vec.size()) : int64_t(0)`. -/
def bcastSizeMsg {α : Type} (root : Nat) (rank : Nat) (v : List α) : Int :=
  if rank = root then Int.ofNat v.length else 0

/-- The SPMD execution of `MpiComm::bcast(std::vector<T>&, int)` (mpiUtils.h
lines 245-257) across all ranks, `vecs` listing each rank's vector: each rank
computes its `vecSize`, the size is broadcast as a single int64, each rank
resizes its vector to the delivered size, and then the element data is
broadcast. -/
def vectorBcastRun {α : Type} (vecs : List (List α)) (root : Nat) (dflt : α) :
    List (List α) :=
  let sizes := List.zipWith (bcastSizeMsg root) (List.range vecs.length) vecs
  let sizes2 := mpiBcastDeliver sizes root
  let resized := List.zipWith (fun v s => vectorResize v s.toNat dflt) vecs sizes2
  mpiBcastDeliver resized root

/-- The list of communication calls a checked buffer overload issues: the
single forwarded call on success, none when the assertion aborts first. -/
def exceptCallTrace (r : Except String CommCall) : List CommCall :=
  match r with
  | Except.ok c => [c]
  | Except.error _ => []

/-- Packages an optional `(count, datatype)` pair as the list of calls it
gives rise to (none modelling a failed template instantiation). -/
def optCallList (a : Option (Nat × MpiType)) (mk : Nat → MpiType → CommCall) :
    List CommCall :=
  match a with
  | some nd => [mk nd.1 nd.2]
  | none => []

/-- The calls issued by `MpiComm::bcastValue` (mpiUtils.h lines 237-243): the
single forwarded broadcast. -/
def bcastValueTrace (T : CppQualType) (root : Nat) : List CommCall :=
  optCallList (bcastValueArgs T) (fun n d => CommCall.bcastCall n d root)

/-- The calls issued by the template overload `MpiComm::send(T const&, int,
int)` (mpiUtils.h lines 266-272): the single forwarded send. -/
def sendValueTrace (T : CppQualType) (dest tag : Nat) : List CommCall :=
  optCallList (sendValueArgs T) (fun n d => CommCall.sendCall n d dest tag)

/-- The calls issued by the template overload `MpiComm::recv(T&, int, int)`
(mpiUtils.h lines 281-287): the single forwarded receive. -/
def recvValueTrace (T : CppQualType) (source tag : Nat) : List CommCall :=
  optCallList (recvValueArgs T) (fun n d => CommCall.recvCall n d source tag)

/-- Modelled from the spec: the out-of-line `MpiComm::split` (declared
mpiUtils.h line 222) is "a single forwarding call into the native library". -/
def splitTrace (color key : Int) : List CommCall :=
  [CommCall.splitCall color key]

/-- Modelled from the spec: the out-of-line `MpiComm::bcastAsync(void*,
size_t, MpiType, int)` (declared mpiUtils.h line 224) is a single forwarding
call into the native library. -/
def bcastAsyncRawTrace (count : Nat) (d : MpiType) (root : Nat) : List CommCall :=
  [CommCall.bcastCall count d root]

/-- Modelled from the spec: the out-of-line `MpiComm::bcast(void*, size_t,
MpiType, int)` (declared mpiUtils.h line 231) is a single forwarding call
into the native library. -/
def bcastRawTrace (count : Nat) (d : MpiType) (root : Nat) : List CommCall :=
  [CommCall.bcastCall count d root]

/-- Modelled from the spec: the out-of-line `MpiComm::send(void const*,
size_t, MpiType, int, int)` (declared mpiUtils.h line 259) is a single
forwarding call into the native library. -/
def sendRawTrace (count : Nat) (d : MpiType) (dest tag : Nat) : List CommCall :=
  [CommCall.sendCall count d dest tag]

/-- Modelled from the spec: the out-of-line `MpiComm::recv(void*, size_t,
MpiType, int, int)` (declared mpiUtils.h line 274) is a single forwarding
call into the native library. -/
def recvRawTrace (count : Nat) (d : MpiType) (source tag : Nat) : List CommCall :=
  [CommCall.recvCall count d source tag]

/-- Modelled from the spec: the out-of-line `MpiComm::allreduce` (declared
mpiUtils.h line 289) is a single forwarding call into the native library. -/
def allreduceTrace (count : Nat) (d : MpiType) (op : MpiOp) : List CommCall :=
  [CommCall.allreduceCall count d op]

/-- Modelled from the spec: the out-of-line `MpiComm::allgather` (declared
mpiUtils.h line 290) is a single forwarding call into the native library. -/
def allgatherTrace (count : Nat) (d : MpiType) : List CommCall :=
  [CommCall.allgatherCall count d]

/-- Modelled from the spec: the out-of-line `MpiComm::barrier` (declared
mpiUtils.h line 291) is a single forwarding call into the native library. -/
def barrierTrace : List CommCall :=
  [CommCall.barrierCall]

/-- Modelled from the spec: the out-of-line `MpiComm::mprobe` (declared
mpiUtils.h line 293) is a single forwarding call into the native library. -/
def mprobeTrace (source tag : Nat) : List CommCall :=
  [CommCall.mprobeCall source tag]

/-- The `(count, datatype)` of the element-data broadcast in
`MpiComm::bcast(std::vector<T>&, int)` (mpiUtils.h lines 251-256), for the
vector length `len` after the resize: `vec.size()` elements of the converted
type when the element type is fundamental, else `vec.size() * sizeof(T)`
elements of `MpiType::kBYTE`. -/
def vectorDataCallArgs (T : CppQualType) (len : Nat) : Option (Nat × MpiType) :=
  if (removeCv T).isFundamental then
    ((removeCv T).mpiSpecialization).map (fun c => (len, MpiTypeConverter c))
  else
    some (len * sizeofT T, MpiType.kBYTE)

/-- The communication calls one rank issues while executing
`MpiComm::bcast(std::vector<T>&, int)` (mpiUtils.h lines 245-257): first the
size broadcast `bcast(&vecSize, 1, MpiType::kINT64, root)`, then the
element-data broadcast on the vector resized to the delivered size
`recvdSize` (the native size broadcast delivers the root's size to every
rank). -/
def bcastVectorTrace (T : CppQualType) (root rank myLen recvdSize : Nat) :
    List CommCall :=
  let _vecSize : Int := if rank = root then Int.ofNat myLen else 0
  CommCall.bcastCall 1 MpiType.kINT64 root
    :: optCallList (vectorDataCallArgs T recvdSize)
        (fun n d => CommCall.bcastCall n d root)

end tensorrt_llm.mpi

namespace packaging

/-- The repository files visible to `pre_build_script.sh`, as a partial map
from path to content. -/
abbrev FileSys := String → Option String

/-- Reading a file, `none` when it does not exist. -/
def readFile (fs : FileSys) (path : String) : Option String := fs path

/-- Shell output redirection `> path`: (over)writes the file. -/
def writeFile (fs : FileSys) (path content : String) : FileSys :=
  fun p => if p = path then some content else fs p

/-- `sed -i`-style in-place edit: applies `f` to the file's content when the
file exists. -/
def updateFile (fs : FileSys) (path : String) (f : String → String) : FileSys :=
  match fs path with
  | some c => writeFile fs path (f c)
  | none => fs

/-- The template path used at pre_build_script.sh line 37. -/
def tmplPath : String := "toolchains/ci_workspaces/MODULE.bazel.tmpl"

/-- The `sed -i -e "s/tensorrt-cu12==/..."` rewrite of pyproject.toml
(pre_build_script.sh lines 31-34), with `cu4` the first four characters of
`CU_VERSION`. -/
def sedTensorrtSubst (cu4 : String) (s : String) : String :=
  let s1 := s.replace "tensorrt-cu12==" ("tensorrt-" ++ cu4 ++ "==")
  let s2 := s1.replace "tensorrt-cu12-bindings==" ("tensorrt-" ++ cu4 ++ "-bindings==")
  s2.replace "tensorrt-cu12-libs==" ("tensorrt-" ++ cu4 ++ "-libs==")

/-- The effect of `pre_build_script.sh` on the repository files: lines 29-35
conditionally rewrite pyproject.toml in place when the first four characters
of `CU_VERSION` sort below "cu12", and line 37 pipes the template through
envsubst into the build-module file
(`cat toolchains/ci_workspaces/MODULE.bazel.tmpl | envsubst > MODULE.bazel`).
The package installs, downloads and exports in the rest of the script touch
no repository file. `envsubst` is a GNU gettext binary external to the
repository; `es` is the substitution it performs under the current
environment. `cat` of a missing file feeds empty input into the pipe. -/
def preBuildScriptRun (es : String → String) (cuVersion : String)
    (fs : FileSys) : FileSys :=
  let fs1 := if cuVersion.take 4 < "cu12"
    then updateFile fs "pyproject.toml" (sedTensorrtSubst (cuVersion.take 4))
    else fs
  writeFile fs1 "MODULE.bazel" (es ((readFile fs1 tmplPath).getD ""))

/-- A one-file repository holding only the template, for the witness. -/
def fsWitness : FileSys :=
  fun p => if p = tmplPath then some "module-template" else none

end packaging

namespace tensorrt_llm.mpi

/-- C7: `MpiTypeConverter` assigns to each supported C++ type exactly one
`MpiType` tag (it is total and single-valued on the supported types), and the
assignment is injective: no two distinct supported C++ types map to the same
`MpiType` value. -/
theorem mpiTypeConverter_injective :
    ∀ a b : CppConvType, MpiTypeConverter a = MpiTypeConverter b → a = b := by
  decide

/-- Witness for C7 at two concrete supported types. -/
theorem mpiTypeConverter_injective_witness : CppConvType.half = CppConvType.half :=
  mpiTypeConverter_injective CppConvType.half CppConvType.half rfl

/-- C10: `MpiComm` equality is decided solely by the native handle `mComm`:
`a == b` holds iff the handles are equal, two values differing only in
`mFreeComm` compare equal, and `a != b` holds iff `a == b` does not. -/
theorem mpiComm_eq_by_handle (a b : MpiComm) :
    (MpiComm.eqOp a b = true ↔ a.mComm = b.mComm)
    ∧ (∀ h f g, MpiComm.eqOp ⟨h, f⟩ ⟨h, g⟩ = true)
    ∧ (MpiComm.neOp a b = true ↔ ¬ MpiComm.eqOp a b = true) := by
  refine ⟨?_, ?_, ?_⟩
  · simp [MpiComm.eqOp]
  · intro h f g
    simp [MpiComm.eqOp]
  · simp only [MpiComm.neOp, MpiComm.eqOp, Bool.not_eq_true', beq_eq_false_iff_ne,
      ne_eq, beq_iff_eq]
    omega

/-- C8: the thread-support level is chosen only at initialization:
`initialize` defaults to `THREAD_FUNNELED` and just forwards the requested
level, and each `MpiThreadSupport` enumerator's numeric value is the
corresponding native `<mpi.h>` thread-support constant. -/
theorem threadSupport_matches_native (n : MpiNativeThreadConsts)
    (m : MpiThreadSupport) :
    initializeDefaultThreadMode = MpiThreadSupport.THREAD_FUNNELED
    ∧ initializeRequestedLevel m = m
    ∧ mpiThreadSupportValue n MpiThreadSupport.THREAD_SINGLE = n.MPI_THREAD_SINGLE
    ∧ mpiThreadSupportValue n MpiThreadSupport.THREAD_FUNNELED = n.MPI_THREAD_FUNNELED
    ∧ mpiThreadSupportValue n MpiThreadSupport.THREAD_SERIALIZED = n.MPI_THREAD_SERIALIZED
    ∧ mpiThreadSupportValue n MpiThreadSupport.THREAD_MULTIPLE = n.MPI_THREAD_MULTIPLE := by
  exact ⟨rfl, rfl, rfl, rfl, rfl, rfl⟩

/-- C1: the claim that every wrapped native call site aborts on a non-success
return code fails at `MpiRequest::wait`: when `MPI_Wait` returns the
non-success code 1 the method still returns normally, whereas the checked
call sites (the `TLLM_MPI_CHECK` macro) abort on that same code. -/
theorem mpiRequestWait_ignores_failure :
    mpiRequestWait 1 = Except.ok ()
    ∧ (1 : Int) ≠ MPI_SUCCESS
    ∧ tllmMpiCheck 1 = Except.error "Failed: MPI error" := by
  refine ⟨rfl, by decide, rfl⟩

/-- C4: the typed helpers `bcastValue`, `send(T const&)` and `recv(T&)`
dispatch uniformly: when `std::remove_cv_t<T>` is fundamental each transfers
exactly one element tagged with `MpiTypeConverter`'s value for that type, and
otherwise each transfers exactly `sizeof(T)` elements tagged
`MpiType::kBYTE`. -/
theorem valueHelpers_dispatch_uniform (T : CppQualType) :
    (∀ c, (removeCv T).isFundamental = true →
      (removeCv T).mpiSpecialization = some c →
      bcastValueArgs T = some (1, MpiTypeConverter c)
      ∧ sendValueArgs T = some (1, MpiTypeConverter c)
      ∧ recvValueArgs T = some (1, MpiTypeConverter c))
    ∧ ((removeCv T).isFundamental = false →
      bcastValueArgs T = some (sizeofT T, MpiType.kBYTE)
      ∧ sendValueArgs T = some (sizeofT T, MpiType.kBYTE)
      ∧ recvValueArgs T = some (sizeofT T, MpiType.kBYTE)) := by
  constructor
  · intro c hf hs
    simp [bcastValueArgs, sendValueArgs, recvValueArgs, hf, hs]
  · intro hf
    simp [bcastValueArgs, sendValueArgs, recvValueArgs, hf]

/-- Witness for C4 at the concrete descriptor of `std::int32_t`. -/
theorem valueHelpers_dispatch_uniform_witness :
    bcastValueArgs cppInt32 = some (1, MpiType.kINT32)
    ∧ sendValueArgs cppInt32 = some (1, MpiType.kINT32)
    ∧ recvValueArgs cppInt32 = some (1, MpiType.kINT32) :=
  (valueHelpers_dispatch_uniform cppInt32).1 CppConvType.int32 rfl rfl

/-- C5: an `MpiComm` is determined by its two data members `mComm` and
`mFreeComm`; construction stores the handle and the ownership flag;
destruction releases the native communicator iff the flag is set; and every
operation other than construction, move and destruction (all declared
`const`) leaves both fields unchanged. -/
theorem mpiComm_state_and_ownership (c : MpiComm) (op : MpiCommConstOp)
    (g : Nat) (f : Bool) :
    (∀ a b : MpiComm, a.mComm = b.mComm → a.mFreeComm = b.mFreeComm → a = b)
    ∧ (MpiComm.construct g f).mComm = g
    ∧ (MpiComm.construct g f).mFreeComm = f
    ∧ (MpiComm.destructorReleases c = true ↔ c.mFreeComm = true)
    ∧ MpiComm.afterConstOp c op = c := by
  refine ⟨?_, rfl, rfl, Iff.rfl, rfl⟩
  intro a b h1 h2
  cases a
  cases b
  simp_all

/-- Witness for C5 at a concrete communicator value. -/
theorem mpiComm_state_and_ownership_witness :
    (⟨5, true⟩ : MpiComm) = ⟨5, true⟩
    ∧ (MpiComm.construct 7 false).mComm = 7
    ∧ (MpiComm.construct 7 false).mFreeComm = false
    ∧ MpiComm.destructorReleases ⟨5, true⟩ = true
    ∧ MpiComm.afterConstOp ⟨5, true⟩ MpiCommConstOp.barrierOp = ⟨5, true⟩ :=
  let t := mpiComm_state_and_ownership ⟨5, true⟩ MpiCommConstOp.barrierOp 7 false
  ⟨t.1 ⟨5, true⟩ ⟨5, true⟩ rfl rfl, t.2.1, t.2.2.1, (t.2.2.2.1).mpr rfl, t.2.2.2.2⟩

/-- C6: on a buffer whose memory type is `kGPU`, the IBuffer overloads of
`bcastAsync`, `send` and `recv` abort in `TLLM_CHECK` before producing any
communication call, while the blocking IBuffer overload of `bcast` performs
no memory-type check and forwards the buffer unconditionally. -/
theorem gpuBuffer_checked_except_blocking_bcast (buf : IBuffer)
    (root dest tag source rtag : Nat) (h : buf.memoryType = MemoryType.kGPU) :
    bcastAsyncBuf buf root = Except.error "TLLM_CHECK failed"
    ∧ sendBuf buf dest tag = Except.error "TLLM_CHECK failed"
    ∧ recvBuf buf source rtag = Except.error "TLLM_CHECK failed"
    ∧ bcastBuf buf root
        = Except.ok (CommCall.bcastCall buf.sizeInBytes MpiType.kBYTE root) := by
  refine ⟨?_, ?_, ?_, rfl⟩ <;>
    simp [bcastAsyncBuf, sendBuf, recvBuf, tllmCheck, h, Except.bind]

/-- Witness for C6 at a concrete GPU buffer. -/
theorem gpuBuffer_checked_except_blocking_bcast_witness :
    bcastAsyncBuf ⟨MemoryType.kGPU, 16⟩ 0 = Except.error "TLLM_CHECK failed"
    ∧ sendBuf ⟨MemoryType.kGPU, 16⟩ 1 2 = Except.error "TLLM_CHECK failed"
    ∧ recvBuf ⟨MemoryType.kGPU, 16⟩ 3 4 = Except.error "TLLM_CHECK failed"
    ∧ bcastBuf ⟨MemoryType.kGPU, 16⟩ 0
        = Except.ok (CommCall.bcastCall 16 MpiType.kBYTE 0) :=
  gpuBuffer_checked_except_blocking_bcast ⟨MemoryType.kGPU, 16⟩ 0 1 2 3 4 rfl

/-- C2 fails on the code: at the concrete element type `std::int32_t` the
std::vector overload of `MpiComm::bcast` issues two communication calls (the
size broadcast followed by the data broadcast), refuting "no wrapper method
issues more than one communication call". -/
theorem bcastVector_not_single_call :
    ¬ (bcastVectorTrace cppInt32 0 0 3 3).length ≤ 1 := by
  decide

theorem exceptCallTrace_length_le (r : Except String CommCall) :
    (exceptCallTrace r).length ≤ 1 := by
  cases r <;> simp [exceptCallTrace]

theorem optCallList_length_le (a : Option (Nat × MpiType))
    (mk : Nat → MpiType → CommCall) : (optCallList a mk).length ≤ 1 := by
  cases a <;> simp [optCallList]

/-- C2 (amended): every wrapper method other than the std::vector overload of
bcast forwards at most one communication call (the out-of-line methods
exactly one, the checked and template helpers at most one), while the
std::vector overload issues exactly two broadcast calls: a length-prefix
broadcast of the size as one int64, followed by the element-data
broadcast. -/
theorem wrapperMethods_single_call_except_vectorBcast
    (T : CppQualType) (buf : IBuffer) (color key : Int)
    (count root dest tag source rank myLen recvdSize : Nat) (d : MpiType)
    (op : MpiOp) :
    (∀ p, vectorDataCallArgs T recvdSize = some p →
      bcastVectorTrace T root rank myLen recvdSize
        = [CommCall.bcastCall 1 MpiType.kINT64 root,
           CommCall.bcastCall p.1 p.2 root])
    ∧ (splitTrace color key).length = 1
    ∧ (bcastAsyncRawTrace count d root).length = 1
    ∧ (bcastRawTrace count d root).length = 1
    ∧ (sendRawTrace count d dest tag).length = 1
    ∧ (recvRawTrace count d source tag).length = 1
    ∧ (allreduceTrace count d op).length = 1
    ∧ (allgatherTrace count d).length = 1
    ∧ barrierTrace.length = 1
    ∧ (mprobeTrace source tag).length = 1
    ∧ (exceptCallTrace (bcastAsyncBuf buf root)).length ≤ 1
    ∧ (exceptCallTrace (bcastBuf buf root)).length ≤ 1
    ∧ (exceptCallTrace (sendBuf buf dest tag)).length ≤ 1
    ∧ (exceptCallTrace (recvBuf buf source tag)).length ≤ 1
    ∧ (bcastValueTrace T root).length ≤ 1
    ∧ (sendValueTrace T dest tag).length ≤ 1
    ∧ (recvValueTrace T source tag).length ≤ 1 := by
  refine ⟨?_, rfl, rfl, rfl, rfl, rfl, rfl, rfl, rfl, rfl,
    exceptCallTrace_length_le _, exceptCallTrace_length_le _,
    exceptCallTrace_length_le _, exceptCallTrace_length_le _,
    optCallList_length_le _ _, optCallList_length_le _ _,
    optCallList_length_le _ _⟩
  intro p hp
  simp [bcastVectorTrace, optCallList, hp]

/-- Witness for the amended C2: the vector broadcast of three int32 elements
from root 0 issues exactly the size broadcast and the data broadcast. -/
theorem wrapperMethods_single_call_except_vectorBcast_witness :
    bcastVectorTrace cppInt32 0 0 3 3
      = [CommCall.bcastCall 1 MpiType.kINT64 0,
         CommCall.bcastCall 3 MpiType.kINT32 0] :=
  (wrapperMethods_single_call_except_vectorBcast cppInt32 ⟨MemoryType.kCPU, 4⟩
      0 0 1 0 1 2 3 0 5 3 MpiType.kBYTE MpiOp.SUM).1 (3, MpiType.kINT32) rfl

theorem vectorResize_length {α : Type} (v : List α) (n : Nat) (dflt : α) :
    (vectorResize v n dflt).length = n := by
  simp only [vectorResize, List.length_append, List.length_take,
    List.length_replicate]
  omega

theorem mpiBcastDeliver_of_getElem {β : Type} (vals : List β) (root : Nat)
    (x : β) (hx : vals[root]? = some x) :
    mpiBcastDeliver vals root = vals.map (fun _ => x) := by
  unfold mpiBcastDeliver
  rw [hx]

/-- C3: after all ranks complete the std::vector overload of
`MpiComm::bcast`, every rank's vector has the length the root's vector had at
the call. -/
theorem vectorBcast_size_agreement {α : Type} (vecs : List (List α))
    (root : Nat) (dflt : α) (rv : List α) (h : vecs[root]? = some rv) :
    ∀ w ∈ vectorBcastRun vecs root dflt, w.length = rv.length := by
  have hroot : root < vecs.length := by
    by_contra hc
    push_neg at hc
    rw [List.getElem?_eq_none hc] at h
    cases h
  have hsz : (List.zipWith (bcastSizeMsg root) (List.range vecs.length)
      vecs)[root]? = some (Int.ofNat rv.length) := by
    rw [List.getElem?_zipWith', List.getElem?_range hroot, h]
    simp [bcastSizeMsg]
  have hsizes2 := mpiBcastDeliver_of_getElem _ root _ hsz
  have hs2get : (mpiBcastDeliver
      (List.zipWith (bcastSizeMsg root) (List.range vecs.length) vecs)
      root)[root]? = some (Int.ofNat rv.length) := by
    rw [hsizes2, List.getElem?_map, hsz]
    rfl
  have hresized : (List.zipWith (fun v s => vectorResize v s.toNat dflt) vecs
      (mpiBcastDeliver
        (List.zipWith (bcastSizeMsg root) (List.range vecs.length) vecs)
        root))[root]? = some (vectorResize rv rv.length dflt) := by
    rw [List.getElem?_zipWith', h, hs2get]
    rfl
  intro w hw
  unfold vectorBcastRun at hw
  rw [mpiBcastDeliver_of_getElem _ root _ hresized] at hw
  rcases List.mem_map.mp hw with ⟨a, _, hma⟩
  rw [← hma, vectorResize_length]

/-- Witness for C3: in a three-rank run broadcasting the root's
three-element vector, a resulting vector has length 3. -/
theorem vectorBcast_size_agreement_witness :
    ([7, 8, 9] : List Nat).length = 3 :=
  vectorBcast_size_agreement [[7, 8, 9], [4], []] 0 0 [7, 8, 9] (by decide)
    [7, 8, 9] (by decide)

end tensorrt_llm.mpi

namespace packaging

theorem readFile_writeFile_self (fs : FileSys) (p c : String) :
    readFile (writeFile fs p c) p = some c := by
  simp [readFile, writeFile]

theorem readFile_writeFile_ne (fs : FileSys) (p c q : String) (h : q ≠ p) :
    readFile (writeFile fs p c) q = readFile fs q := by
  simp [readFile, writeFile, h]

theorem readFile_updateFile_ne (fs : FileSys) (p q : String)
    (f : String → String) (h : q ≠ p) :
    readFile (updateFile fs p f) q = readFile fs q := by
  unfold updateFile
  rcases hq : fs p with _ | c
  · rfl
  · exact readFile_writeFile_ne fs p (f c) q h

theorem readFile_preBuildScript_tmpl (cuVersion : String) (fs : FileSys) :
    readFile (if cuVersion.take 4 < "cu12"
        then updateFile fs "pyproject.toml" (sedTensorrtSubst (cuVersion.take 4))
        else fs) tmplPath = readFile fs tmplPath := by
  split
  · exact readFile_updateFile_ne fs "pyproject.toml" tmplPath _ (by decide)
  · rfl

/-- C9: the build script produces MODULE.bazel by applying the
environment-variable substitution to the content of
toolchains/ci_workspaces/MODULE.bazel.tmpl, and the template file itself is
unchanged by the script. -/
theorem preBuildScript_moduleBazel (es : String → String) (cuVersion : String)
    (fs : FileSys) (tmpl : String) (h : readFile fs tmplPath = some tmpl) :
    readFile (preBuildScriptRun es cuVersion fs) "MODULE.bazel" = some (es tmpl)
    ∧ readFile (preBuildScriptRun es cuVersion fs) tmplPath
        = readFile fs tmplPath := by
  have htmpl1 := readFile_preBuildScript_tmpl cuVersion fs
  constructor
  · unfold preBuildScriptRun
    rw [readFile_writeFile_self]
    rw [htmpl1, h]
    rfl
  · unfold preBuildScriptRun
    rw [readFile_writeFile_ne _ _ _ _ (by decide)]
    exact htmpl1

/-- Witness for C9 on a concrete one-file repository with the identity
substitution. -/
theorem preBuildScript_moduleBazel_witness :
    readFile (preBuildScriptRun id "cu124" fsWitness) "MODULE.bazel"
        = some "module-template"
    ∧ readFile (preBuildScriptRun id "cu124" fsWitness) tmplPath
        = readFile fsWitness tmplPath :=
  preBuildScript_moduleBazel id "cu124" fsWitness "module-template"
    (by simp [readFile, fsWitness])

end packaging
